import Mathlib

/-
Verification of the joule control-loop core.

Embedded source:
  * src/autoscale/events/__init__.py — the `Events` enumeration and the
    `Event` class.
  * src/joule/providers/__init__.py — `BaseProvider.__init__` and
    `BaseProvider.loop`.

Modelling conventions:
  * The abstract provider/application operations (`mark_essential`,
    `mark_enrolled`, `is_enrolled`, `send_join_to_message_queue`,
    `Application.join/launch/terminate`, `sleep`) have no bodies in the
    source; the loop's observable behaviour is therefore the ordered list
    of such calls it makes.  We embed one loop iteration as a function
    producing that list of `Action`s, together with a Boolean that is
    `true` when the Python code raises an exception (the only raise the
    loop body itself can produce is the `AttributeError` from reading
    `event.application` on an object that never had the attribute
    assigned).
  * Python allows attributes to be absent from an object altogether, and
    `Event.__init__` assigns only `event`, `instance` and `token`.  The
    field `application : Option (Option App)` records this faithfully:
    `none` means the attribute was never assigned (reading it raises
    `AttributeError`), `some none` means it was assigned the value `None`,
    and `some (some a)` means it was assigned the Application `a`.
  * Python `==` between an `Event.application` value and a registered
    Application object is default object equality (identity); registered
    Applications are modelled as values of an arbitrary type `App` with
    decidable equality.
-/

namespace Joule

/-- The `Events` enumeration from src/autoscale/events/__init__.py:
`JOIN = 0`, `LAUNCH = 1`, `TERMINATE = 2`. -/
inductive Events where
  | JOIN
  | LAUNCH
  | TERMINATE
deriving DecidableEq

/-- The numeric value each `Events` member is declared with in the source. -/
def Events.value : Events → Nat
  | Events.JOIN => 0
  | Events.LAUNCH => 1
  | Events.TERMINATE => 2

/-- The `Event` class from src/autoscale/events/__init__.py, as its objects
can appear at the point the dispatch loop reads them.  `inst` models the
Python attribute `instance` (a Lean keyword).  `application` is
`Option (Option App)`: `none` = the attribute was never assigned (as after
`Event.__init__`, whose parameter list has no `application`), `some v` = the
attribute was assigned, with `v = none` standing for Python `None`. -/
structure Event (App : Type) where
  event : Events
  inst : String
  token : Option String
  application : Option (Option App)
deriving DecidableEq

/-- `Event.__init__(self, event, instance, token=None)`: assigns `event`,
`instance` and `token` and nothing else, so the `application` attribute is
absent (`none`) on the constructed object.  The Python default `token=None`
is rendered by passing `none` explicitly. -/
def Event.init {App : Type} (event : Events) (inst : String)
    (token : Option String) : Event App :=
  ⟨event, inst, token, none⟩

/-- One observable call made by `BaseProvider.loop`.  Each constructor is one
of the abstract operations the loop body invokes (plus `time.sleep`), with
the arguments the loop passes (the `self` argument is implicit). -/
inductive Action (App : Type) where
  | mark_essential
  | mark_enrolled
  | is_enrolled
  | send_join_to_message_queue (application : App) (event : Event App)
      (payload : List (String × String))
  | join (application : App) (event : Event App)
  | launch (application : App) (event : Event App)
  | terminate (application : App) (event : Event App)
  | sleep (seconds : Nat)
deriving DecidableEq

/-- The `_tag_enrolled` dictionary assigned by `BaseProvider.__init__`. -/
def tagEnrolledValue : List (String × String) :=
  [("Key", "joule:enrolled"), ("Value", "1")]

/-- The attributes `BaseProvider.__init__` stores on the provider:
`self.applications` (the tuple of Applications, ordered as passed) and
`self._tag_enrolled`. -/
structure BaseProviderState (App : Type) where
  applications : List App
  tagEnrolled : List (String × String)
deriving DecidableEq

/-- `BaseProvider.__init__(self, *applications)` from
src/joule/providers/__init__.py lines 21-27: it stores the applications
tuple and the `_tag_enrolled` dictionary.  The body contains no check and no
raise, so the result is `Except.ok` for every argument list, the empty one
included; the `Except` wrapper records that construction has no failure
path. -/
def BaseProvider.init {App : Type} (applications : List App) :
    Except String (BaseProviderState App) :=
  Except.ok ⟨applications, tagEnrolledValue⟩

/-- The inner `for app in self.applications` loop of the JOIN branch
(src/joule/providers/__init__.py lines 98-100): for each registered
Application in order, evaluate `event.application == app` and call
`app.join(self, event)` on a match.  Reading `event.application` when the
attribute is absent raises `AttributeError`: the result's Boolean is `true`
and the calls made before the raise (none, since the read happens at the
first comparison) are returned. -/
def joinScan {App : Type} [DecidableEq App] (e : Event App) :
    List App → List (Action App) × Bool
  | [] => ([], false)
  | app :: rest =>
    match e.application with
    | none => ([], true)
    | some target =>
      let tail := joinScan e rest
      ((if target = some app then [Action.join app e] else []) ++ tail.1,
        tail.2)

/-- The dispatch of one `Event` by the loop body
(src/joule/providers/__init__.py lines 96-111): JOIN runs `joinScan` over
the registered Applications and then calls `self.mark_enrolled()` (skipped
when the scan raised); LAUNCH and TERMINATE call `app.launch(self, event)`
resp. `app.terminate(self, event)` on every registered Application in
order. -/
def dispatchEvent {App : Type} [DecidableEq App] (applications : List App)
    (e : Event App) : List (Action App) × Bool :=
  match e.event with
  | Events.JOIN =>
    let scan := joinScan e applications
    if scan.2 then (scan.1, true) else (scan.1 ++ [Action.mark_enrolled], false)
  | Events.LAUNCH => (applications.map (fun app => Action.launch app e), false)
  | Events.TERMINATE =>
    (applications.map (fun app => Action.terminate app e), false)

/-- The `for event in self.get_events_from_message_queue()` loop
(src/joule/providers/__init__.py line 95) over one polled batch: events are
dispatched in batch order; an exception raised while dispatching one event
propagates, so later events of the batch are not dispatched. -/
def dispatchBatch {App : Type} [DecidableEq App] (applications : List App) :
    List (Event App) → List (Action App) × Bool
  | [] => ([], false)
  | e :: rest =>
    let d := dispatchEvent applications e
    if d.2 then (d.1, true)
    else
      let t := dispatchBatch applications rest
      (d.1 ++ t.1, t.2)

/-- One iteration of the `while True` body of `BaseProvider.loop`
(src/joule/providers/__init__.py lines 90-114), with the polled batch given
as the list of Events the `get_events_from_message_queue()` iterator
yielded: `self.mark_essential()` first, then the dispatch of the batch, then
`sleep(5)` — unless dispatching raised, in which case the exception
propagates out of `loop` before the sleep. -/
def loopIter {App : Type} [DecidableEq App] (applications : List App)
    (batch : List (Event App)) : List (Action App) × Bool :=
  let d := dispatchBatch applications batch
  (Action.mark_essential :: (d.1 ++ if d.2 then [] else [Action.sleep 5]), d.2)

/-- One loop iteration threaded through the provider's stored attributes:
the body of `BaseProvider.loop` only reads `self.applications` and assigns
no attribute of `self`, so the state component of the result is the input
state. -/
def loopIterS {App : Type} [DecidableEq App] (s : BaseProviderState App)
    (batch : List (Event App)) :
    BaseProviderState App × (List (Action App) × Bool) :=
  (s, loopIter s.applications batch)

/-- The four phases of one loop iteration as the specification names them. -/
inductive Phase where
  | MARKING
  | POLLING
  | DISPATCHING
  | IDLE
deriving DecidableEq

/-- The control-flow successor inside `BaseProvider.loop`: mark, poll,
dispatch, idle, and from the idle step back to marking with the iteration
counter advanced — the `while True` has no exit. -/
def stepState : Phase × Nat → Phase × Nat
  | (Phase.MARKING, n) => (Phase.POLLING, n)
  | (Phase.POLLING, n) => (Phase.DISPATCHING, n)
  | (Phase.DISPATCHING, n) => (Phase.IDLE, n)
  | (Phase.IDLE, n) => (Phase.MARKING, n + 1)

/-- When the dispatched Event carries the `application` attribute with value
`r`, the JOIN inner loop performs exactly one `join` call per registered
Application equal to `r`, in list order, and does not raise. -/
theorem joinScan_of_present {App : Type} [DecidableEq App] (e : Event App)
    (r : Option App) (ha : e.application = some r) (apps : List App) :
    joinScan e apps =
      ((apps.filter fun a => decide (r = some a)).map fun a =>
        Action.join a e, false) := by
  induction apps with
  | nil => rfl
  | cons app rest ih =>
    simp only [joinScan, ha, List.filter_cons]
    rw [ih]
    by_cases hr : r = some app
    · simp [hr]
    · simp [hr]

/-- Every call the JOIN inner loop emits is a `join` call carrying the
dispatched Event. -/
theorem mem_joinScan {App : Type} [DecidableEq App] {e : Event App}
    {x : Action App} (apps : List App) (hx : x ∈ (joinScan e apps).1) :
    ∃ a, x = Action.join a e := by
  induction apps with
  | nil => simp [joinScan] at hx
  | cons app rest ih =>
    cases ha : e.application with
    | none => simp [joinScan, ha] at hx
    | some target =>
      simp only [joinScan, ha, List.mem_append] at hx
      rcases hx with hx | hx
      · by_cases hr : target = some app
        · simp only [if_pos hr, List.mem_singleton] at hx
          exact ⟨app, hx⟩
        · simp [if_neg hr] at hx
      · exact ih hx

/-- Every call emitted while dispatching one Event is a `join`, `launch` or
`terminate` callback carrying that Event, or a `mark_enrolled` call. -/
theorem mem_dispatchEvent {App : Type} [DecidableEq App] {x : Action App}
    (apps : List App) (e : Event App) (hx : x ∈ (dispatchEvent apps e).1) :
    (∃ a, x = Action.join a e) ∨ (∃ a, x = Action.launch a e) ∨
      (∃ a, x = Action.terminate a e) ∨ x = Action.mark_enrolled := by
  cases he : e.event with
  | JOIN =>
    simp only [dispatchEvent, he] at hx
    by_cases hs : (joinScan e apps).2 = true
    · simp only [if_pos hs] at hx
      exact Or.inl (mem_joinScan apps hx)
    · simp only [Bool.not_eq_true] at hs
      simp only [hs, Bool.false_eq_true, if_false, List.mem_append,
        List.mem_singleton] at hx
      rcases hx with hx | hx
      · exact Or.inl (mem_joinScan apps hx)
      · exact Or.inr (Or.inr (Or.inr hx))
  | LAUNCH =>
    simp only [dispatchEvent, he, List.mem_map] at hx
    obtain ⟨a, _, hax⟩ := hx
    exact Or.inr (Or.inl ⟨a, hax.symm⟩)
  | TERMINATE =>
    simp only [dispatchEvent, he, List.mem_map] at hx
    obtain ⟨a, _, hax⟩ := hx
    exact Or.inr (Or.inr (Or.inl ⟨a, hax.symm⟩))

/-- Every call emitted while dispatching a batch is a callback or
`mark_enrolled` call attributed to one of the batch's Events. -/
theorem mem_dispatchBatch {App : Type} [DecidableEq App] {x : Action App}
    (apps : List App) (batch : List (Event App))
    (hx : x ∈ (dispatchBatch apps batch).1) :
    ∃ e ∈ batch, (∃ a, x = Action.join a e) ∨ (∃ a, x = Action.launch a e) ∨
      (∃ a, x = Action.terminate a e) ∨ x = Action.mark_enrolled := by
  induction batch with
  | nil => simp [dispatchBatch] at hx
  | cons e rest ih =>
    by_cases hd : (dispatchEvent apps e).2 = true
    · simp only [dispatchBatch, hd, if_true] at hx
      exact ⟨e, by simp, mem_dispatchEvent apps e hx⟩
    · simp only [Bool.not_eq_true] at hd
      simp only [dispatchBatch, hd, Bool.false_eq_true, if_false,
        List.mem_append] at hx
      rcases hx with hx | hx
      · exact ⟨e, by simp, mem_dispatchEvent apps e hx⟩
      · obtain ⟨e', he', hsh⟩ := ih hx
        exact ⟨e', by simp [he'], hsh⟩

/-- If dispatching a nonempty batch did not raise, then dispatching its head
did not raise, dispatching its tail did not raise, and the trace is the
head's trace followed by the tail's trace. -/
theorem dispatchBatch_cons_of_ok {App : Type} [DecidableEq App]
    (apps : List App) (e : Event App) (rest : List (Event App))
    (h : (dispatchBatch apps (e :: rest)).2 = false) :
    (dispatchEvent apps e).2 = false ∧ (dispatchBatch apps rest).2 = false ∧
      dispatchBatch apps (e :: rest) =
        ((dispatchEvent apps e).1 ++ (dispatchBatch apps rest).1, false) := by
  by_cases hd : (dispatchEvent apps e).2 = true
  · simp [dispatchBatch, hd] at h
  · simp only [Bool.not_eq_true] at hd
    simp only [dispatchBatch, hd, Bool.false_eq_true, if_false] at h
    refine ⟨hd, h, ?_⟩
    simp only [dispatchBatch, hd, Bool.false_eq_true, if_false, h]

/-- `mark_essential` is never among the calls made while dispatching a
batch: the loop body calls it once, before the dispatch, and nowhere
else. -/
theorem mark_essential_not_mem_dispatchBatch {App : Type} [DecidableEq App]
    (apps : List App) (batch : List (Event App)) :
    Action.mark_essential ∉ (dispatchBatch apps batch).1 := by
  intro hm
  obtain ⟨e, _, hsh⟩ := mem_dispatchBatch apps batch hm
  rcases hsh with ⟨a, ha⟩ | ⟨a, ha⟩ | ⟨a, ha⟩ | ha <;> simp at ha

/-- `is_enrolled` is never among the calls made while dispatching a batch:
the loop body never queries enrollment. -/
theorem is_enrolled_not_mem_dispatchBatch {App : Type} [DecidableEq App]
    (apps : List App) (batch : List (Event App)) :
    Action.is_enrolled ∉ (dispatchBatch apps batch).1 := by
  intro hm
  obtain ⟨e, _, hsh⟩ := mem_dispatchBatch apps batch hm
  rcases hsh with ⟨a, ha⟩ | ⟨a, ha⟩ | ⟨a, ha⟩ | ha <;> simp at ha

/-- `send_join_to_message_queue` is never among the calls made while
dispatching a batch: the loop body never publishes a join payload. -/
theorem send_join_not_mem_dispatchBatch {App : Type} [DecidableEq App]
    (apps : List App) (batch : List (Event App)) (a0 : App) (e0 : Event App)
    (p0 : List (String × String)) :
    Action.send_join_to_message_queue a0 e0 p0 ∉ (dispatchBatch apps batch).1 := by
  intro hm
  obtain ⟨e, _, hsh⟩ := mem_dispatchBatch apps batch hm
  rcases hsh with ⟨a, ha⟩ | ⟨a, ha⟩ | ⟨a, ha⟩ | ha <;> simp at ha

/-- Dispatching one Event without raising makes exactly one `mark_enrolled`
call when the Event's kind is JOIN and none otherwise. -/
theorem count_mark_enrolled_dispatchEvent {App : Type} [DecidableEq App]
    (apps : List App) (e : Event App) (h : (dispatchEvent apps e).2 = false) :
    (dispatchEvent apps e).1.count Action.mark_enrolled =
      if e.event = Events.JOIN then 1 else 0 := by
  cases he : e.event with
  | JOIN =>
    have hs : (joinScan e apps).2 = false := by
      by_contra hs
      simp only [Bool.not_eq_false] at hs
      simp [dispatchEvent, he, hs] at h
    have hz : (joinScan e apps).1.count Action.mark_enrolled = 0 :=
      List.count_eq_zero.mpr (fun hm => by
        obtain ⟨a, ha⟩ := mem_joinScan apps hm
        simp at ha)
    simp [dispatchEvent, he, hs, List.count_append, hz]
  | LAUNCH =>
    have hz : Action.mark_enrolled ∉ apps.map fun app => Action.launch app e := by
      simp [List.mem_map]
    simp [dispatchEvent, he, List.count_eq_zero.mpr hz]
  | TERMINATE =>
    have hz : Action.mark_enrolled ∉ apps.map fun app => Action.terminate app e := by
      simp [List.mem_map]
    simp [dispatchEvent, he, List.count_eq_zero.mpr hz]

/-- Dispatching a batch without raising makes exactly as many
`mark_enrolled` calls as the batch has JOIN Events. -/
theorem count_mark_enrolled_dispatchBatch {App : Type} [DecidableEq App]
    (apps : List App) (batch : List (Event App))
    (h : (dispatchBatch apps batch).2 = false) :
    (dispatchBatch apps batch).1.count Action.mark_enrolled =
      batch.countP fun e => decide (e.event = Events.JOIN) := by
  induction batch with
  | nil => rfl
  | cons e rest ih =>
    obtain ⟨hd, ht, heq⟩ := dispatchBatch_cons_of_ok apps e rest h
    rw [heq]
    simp only [List.count_append, List.countP_cons]
    rw [count_mark_enrolled_dispatchEvent apps e hd, ih ht]
    by_cases hj : e.event = Events.JOIN
    · simp [hj, Nat.add_comm]
    · simp [hj]

/-- C1: for every Event of kind JOIN that carries the `application`
attribute (with value `r`), the loop invokes `join(provider, event)` exactly
on the registered Applications equal to `r`, in registration order, and then
calls `mark_enrolled()` exactly once — also when the filter is empty because
zero Applications match. -/
theorem claim_C1 {App : Type} [DecidableEq App] (apps : List App)
    (e : Event App) (r : Option App) (hk : e.event = Events.JOIN)
    (ha : e.application = some r) :
    dispatchEvent apps e =
      ((apps.filter fun a => decide (r = some a)).map (fun a =>
        Action.join a e) ++ [Action.mark_enrolled], false) := by
  simp [dispatchEvent, hk, joinScan_of_present e r ha apps]

/-- Witness for C1: Applications `[1, 2]`, a JOIN Event targeting
Application `1` — exactly one `join` call on `1` followed by one
`mark_enrolled` call. -/
theorem claim_C1_witness :
    dispatchEvent [1, 2]
        (⟨Events.JOIN, "i-2", some "t", some (some 1)⟩ : Event Nat) =
      ([Action.join 1
          (⟨Events.JOIN, "i-2", some "t", some (some 1)⟩ : Event Nat),
        Action.mark_enrolled], false) := by
  rw [claim_C1 [1, 2] _ (some 1) rfl rfl]
  rfl

/-- C2 (code evaluated at the failing input): a JOIN Event built by
`Event.__init__` — hence without `token` and without the `application`
attribute — makes the dispatch raise `AttributeError` as soon as one
Application is registered, aborting the batch before `mark_enrolled` and
before any later Event; whereas a JOIN Event whose `application` attribute
was assigned `None` (token still absent) is processed without raising and
the rest of the batch continues.  The absence of the `application`
attribute, unlike the absence of `token`, is therefore a fatal error of the
dispatch, contrary to the claim. -/
theorem claim_C2 :
    dispatchBatch [0] [(Event.init Events.JOIN "i-1" none : Event Nat)] =
      ([], true) ∧
    loopIter [0] [(Event.init Events.JOIN "i-1" none : Event Nat)] =
      ([Action.mark_essential], true) ∧
    dispatchBatch [0]
        [(⟨Events.JOIN, "i-1", none, some none⟩ : Event Nat),
          (Event.init Events.LAUNCH "i-2" none : Event Nat)] =
      ([Action.mark_enrolled,
        Action.launch 0 (Event.init Events.LAUNCH "i-2" none : Event Nat)],
        false) :=
  ⟨rfl, rfl, rfl⟩

/-- C3: a LAUNCH (resp. TERMINATE) Event is dispatched as one
`launch(provider, event)` (resp. `terminate(provider, event)`) call on every
registered Application, exactly once per Application per dispatch of the
Event, in registration order, without raising. -/
theorem claim_C3 {App : Type} [DecidableEq App] (apps : List App)
    (e : Event App) :
    (e.event = Events.LAUNCH →
      dispatchEvent apps e = (apps.map fun a => Action.launch a e, false)) ∧
    (e.event = Events.TERMINATE →
      dispatchEvent apps e = (apps.map fun a => Action.terminate a e, false)) := by
  constructor <;> intro h <;> simp [dispatchEvent, h]

/-- Witness for C3: Applications `[1, 2]`, one LAUNCH and one TERMINATE
Event — each produces exactly the two fan-out calls in order. -/
theorem claim_C3_witness :
    dispatchEvent [1, 2] (Event.init Events.LAUNCH "i-1" none : Event Nat) =
      ([Action.launch 1 (Event.init Events.LAUNCH "i-1" none : Event Nat),
        Action.launch 2 (Event.init Events.LAUNCH "i-1" none : Event Nat)],
        false) ∧
    dispatchEvent [1, 2] (Event.init Events.TERMINATE "i-1" none : Event Nat) =
      ([Action.terminate 1 (Event.init Events.TERMINATE "i-1" none : Event Nat),
        Action.terminate 2 (Event.init Events.TERMINATE "i-1" none : Event Nat)],
        false) := by
  constructor
  · rw [(claim_C3 [1, 2] (Event.init Events.LAUNCH "i-1" none : Event Nat)).1 rfl]
    rfl
  · rw [(claim_C3 [1, 2] (Event.init Events.TERMINATE "i-1" none : Event Nat)).2 rfl]
    rfl

/-- C4: when no Event of the polled batch makes the dispatch raise, the
batch's trace is exactly the concatenation, in batch order, of the
per-Event traces — Events are neither reordered, nor prioritized by kind,
nor dispatched more than once per iteration. -/
theorem claim_C4 {App : Type} [DecidableEq App] (apps : List App)
    (batch : List (Event App))
    (h : ∀ e ∈ batch, (dispatchEvent apps e).2 = false) :
    dispatchBatch apps batch =
      ((batch.map fun e => (dispatchEvent apps e).1).flatten, false) := by
  induction batch with
  | nil => rfl
  | cons e rest ih =>
    have he : (dispatchEvent apps e).2 = false := h e (by simp)
    have hrest := ih (fun e' he' => h e' (by simp [he']))
    simp only [dispatchBatch, he, Bool.false_eq_true, if_false, hrest]
    rfl

/-- Witness for C4: a batch holding a LAUNCH, a JOIN and a TERMINATE Event
is dispatched in exactly that order, each Event once. -/
theorem claim_C4_witness :
    dispatchBatch [1, 2]
        [(Event.init Events.LAUNCH "i-1" none : Event Nat),
          (⟨Events.JOIN, "i-2", some "t", some (some 2)⟩ : Event Nat),
          (Event.init Events.TERMINATE "i-3" none : Event Nat)] =
      ([Action.launch 1 (Event.init Events.LAUNCH "i-1" none : Event Nat),
        Action.launch 2 (Event.init Events.LAUNCH "i-1" none : Event Nat),
        Action.join 2 (⟨Events.JOIN, "i-2", some "t", some (some 2)⟩ : Event Nat),
        Action.mark_enrolled,
        Action.terminate 1 (Event.init Events.TERMINATE "i-3" none : Event Nat),
        Action.terminate 2 (Event.init Events.TERMINATE "i-3" none : Event Nat)],
        false) := by
  rw [claim_C4 [1, 2] _ (by decide)]
  rfl

/-- C5: every loop iteration calls `mark_essential` exactly once, as the
very first call of the iteration — before any Application callback and any
`mark_enrolled` call — and an iteration whose polled batch is empty performs
no Application callback at all: its whole trace is the `mark_essential` call
followed by the idle sleep. -/
theorem claim_C5 {App : Type} [DecidableEq App] (apps : List App)
    (batch : List (Event App)) :
    (loopIter apps batch).1.head? = some Action.mark_essential ∧
    (loopIter apps batch).1.count Action.mark_essential = 1 ∧
    (loopIter apps ([] : List (Event App))).1 =
      [Action.mark_essential, Action.sleep 5] := by
  refine ⟨rfl, ?_, rfl⟩
  have hz : (dispatchBatch apps batch).1.count Action.mark_essential = 0 :=
    List.count_eq_zero.mpr (mark_essential_not_mem_dispatchBatch apps batch)
  by_cases hd : (dispatchBatch apps batch).2 = true
  · simp [loopIter, hd, List.count_cons, List.count_append, hz]
  · simp only [Bool.not_eq_true] at hd
    simp [loopIter, hd, List.count_cons, List.count_append, hz]

/-- C6 counterexample: constructing a Provider with the required
Applications missing — the empty argument tuple — does not fail at startup:
`BaseProvider.__init__` succeeds and stores the empty Application tuple with
the enrollment tag, and nothing stops the loop from then being entered. -/
theorem claim_C6_counterexample :
    BaseProvider.init ([] : List Nat) =
      Except.ok ⟨[], [("Key", "joule:enrolled"), ("Value", "1")]⟩ := rfl

/-- C6 (amended): Provider construction performs no validation and has no
failure path: for every argument tuple of Applications, the empty one
included, `BaseProvider.__init__` succeeds, merely storing the Applications
in order together with the `_tag_enrolled` dictionary. -/
theorem claim_C6 (App : Type) (apps : List App) :
    BaseProvider.init apps = Except.ok ⟨apps, tagEnrolledValue⟩ := rfl

/-- C7: the registered Application collection is fixed at construction —
`__init__` stores exactly the tuple it was given — and a loop iteration
returns the provider's stored attributes unchanged: the Applications are
neither added to, removed from, nor reordered, and the enrollment tag field
is untouched. -/
theorem claim_C7 {App : Type} [DecidableEq App] (apps : List App)
    (s : BaseProviderState App) (batch : List (Event App)) :
    BaseProvider.init apps = Except.ok ⟨apps, tagEnrolledValue⟩ ∧
    (loopIterS s batch).1 = s ∧
    (loopIterS s batch).1.applications = s.applications ∧
    (loopIterS s batch).1.tagEnrolled = s.tagEnrolled :=
  ⟨rfl, rfl, rfl, rfl⟩

/-- C8: for every EventKind value and every instance identifier, an Event
constructed with only (kind, instance) — the `token` parameter left at its
default — has its `token` field absent (`none`). -/
theorem claim_C8 (App : Type) (k : Events) (i : String) :
    (Event.init k i none : Event App).token = none := rfl

/-- C9: under normal operation (the dispatch does not raise) an iteration's
trace is the `mark_essential` call, then the dispatch, then the fixed
5-unit sleep — so every iteration ends with the idle sleep — and the control
flow steps MARKING → POLLING → DISPATCHING → IDLE and back to MARKING with
the iteration counter advanced: there is no terminal state and every
iteration is followed by another. -/
theorem claim_C9 {App : Type} [DecidableEq App] (apps : List App)
    (batch : List (Event App)) (h : (dispatchBatch apps batch).2 = false) :
    (loopIter apps batch).1 =
      Action.mark_essential ::
        ((dispatchBatch apps batch).1 ++ [Action.sleep 5]) ∧
    (loopIter apps batch).1.getLast? = some (Action.sleep 5) ∧
    ∀ n : Nat,
      stepState (stepState (stepState (stepState (Phase.MARKING, n)))) =
        (Phase.MARKING, n + 1) := by
  have htr : (loopIter apps batch).1 =
      Action.mark_essential ::
        ((dispatchBatch apps batch).1 ++ [Action.sleep 5]) := by
    simp [loopIter, h]
  refine ⟨htr, ?_, fun n => rfl⟩
  rw [htr, ← List.cons_append, List.getLast?_concat]

/-- Witness for C9: an empty batch dispatches without raising and the
iteration still ends with the 5-unit sleep. -/
theorem claim_C9_witness :
    (loopIter ([] : List Nat) []).1.getLast? = some (Action.sleep 5) :=
  ((claim_C9 ([] : List Nat) [] rfl).2).1

/-- C10: a loop iteration never makes an `is_enrolled` call and never makes
a `send_join_to_message_queue` call, and (when the dispatch does not raise)
it makes exactly one `mark_enrolled` call per JOIN Event of the polled
batch — enrollment marking is unconditional, regardless of any prior
enrollment state. -/
theorem claim_C10 {App : Type} [DecidableEq App] (apps : List App)
    (batch : List (Event App)) (h : (dispatchBatch apps batch).2 = false) :
    Action.is_enrolled ∉ (loopIter apps batch).1 ∧
    (∀ (a : App) (e : Event App) (p : List (String × String)),
      Action.send_join_to_message_queue a e p ∉ (loopIter apps batch).1) ∧
    (loopIter apps batch).1.count Action.mark_enrolled =
      batch.countP fun e => decide (e.event = Events.JOIN) := by
  have htr : (loopIter apps batch).1 =
      Action.mark_essential ::
        ((dispatchBatch apps batch).1 ++ [Action.sleep 5]) := by
    simp [loopIter, h]
  refine ⟨?_, ?_, ?_⟩
  · rw [htr]
    intro hm
    simp only [List.mem_cons, List.mem_append, List.mem_singleton] at hm
    rcases hm with hm | hm | hm
    · exact Action.noConfusion hm
    · exact is_enrolled_not_mem_dispatchBatch apps batch hm
    · simp at hm
  · intro a e p
    rw [htr]
    intro hm
    simp only [List.mem_cons, List.mem_append, List.mem_singleton] at hm
    rcases hm with hm | hm | hm
    · exact Action.noConfusion hm
    · exact send_join_not_mem_dispatchBatch apps batch a e p hm
    · simp at hm
  · rw [htr]
    have hc := count_mark_enrolled_dispatchBatch apps batch h
    simp [List.count_cons, List.count_append, hc]

/-- Witness for C10: one registered Application and a batch of two JOIN
Events (one targeting nobody, one targeting the Application) — the
iteration makes exactly two `mark_enrolled` calls. -/
theorem claim_C10_witness :
    (loopIter [0]
        [(⟨Events.JOIN, "a", none, some none⟩ : Event Nat),
          (⟨Events.JOIN, "b", none, some (some 0)⟩ : Event Nat)]).1.count
      Action.mark_enrolled = 2 := by
  have h := (claim_C10 [0]
    [(⟨Events.JOIN, "a", none, some none⟩ : Event Nat),
      (⟨Events.JOIN, "b", none, some (some 0)⟩ : Event Nat)] (by decide)).2.2
  rw [h]
  rfl

end Joule
